import Mathlib

/-!
Verification of the authentication subsystem of the spotify-mcp-py
repository (src/spotify_mcp/auth.py and src/spotify_mcp/oauth_server.py),
as a shallow embedding in Lean 4.

Conventions of the embedding:
* clocks (`time.time()`) are an explicit `now : Int` parameter;
* the token-cache file on disk is a `CacheFile` value (missing /
  unreadable / malformed / parsed record);
* side effects of `authenticate` (refresh call, opening the browser,
  binding the callback listener, token exchange, cache save) are recorded
  in an explicit event trace;
* random inputs (`secrets.token_bytes`, the state nonce) are explicit
  parameters, quantified over in the theorems;
* bytes are `Nat` values with an explicit `< 256` bound where it matters.
-/

namespace SpotifyMCP

/-- The persisted token record, exactly the six keys written by
`SpotifyAuth._save_token_cache` (auth.py lines 85-92).  Dictionary reads
in the source use `.get` with defaults `0` / `''`, so a struct with total
fields is faithful for records produced by the writer. -/
structure TokenCache where
  access_token : String
  token_type : String
  expires_in : Int
  refresh_token : String
  scope : String
  expires_at : Int
  deriving DecidableEq, Repr

/-- A token-endpoint JSON response (`token_info` / `new_tokens` in
auth.py): `refresh_token` may be absent, and the spotipy helpers also add
an `expires_at` field which `_save_token_cache` ignores. -/
structure TokenResponse where
  access_token : String
  token_type : String
  expires_in : Int
  refresh_token : Option String
  scope : String
  expires_at : Option Int
  deriving DecidableEq, Repr

/-- Observable states of the cache file that `_load_token_cache` can
meet: no file, an unreadable file (open raises), unparseable JSON
(json.load raises), or a parsed record. -/
inductive CacheFile where
  | missing : CacheFile
  | unreadable : CacheFile
  | malformed : CacheFile
  | parsed : TokenCache → CacheFile
  deriving DecidableEq, Repr

/-- The freshness test of auth.py line 69:
`cache.get('expires_at', 0) > time.time() + 300`. -/
def isFresh (expiresAt now : Int) : Bool :=
  now + 300 < expiresAt

/-- `SpotifyAuth._load_token_cache` (auth.py lines 61-78): missing,
unreadable or malformed cache gives `none`; a parsed record is returned
when it is fresh, or, failing that, when it carries a non-empty
`refresh_token` (Python truthiness of `cache.get('refresh_token')`). -/
def load_token_cache (f : CacheFile) (now : Int) : Option TokenCache :=
  match f with
  | .parsed c =>
      if isFresh c.expires_at now then some c
      else if c.refresh_token ≠ "" then some c
      else none
  | _ => none

/-- The record built by `SpotifyAuth._save_token_cache` (auth.py lines
85-92): `refresh_token` falls back to `''` via
`token_info.get('refresh_token', '')`, and `expires_at` is recomputed as
`int(time.time()) + token_info['expires_in']`, ignoring any `expires_at`
of the response. -/
def save_token_cache (t : TokenResponse) (now : Int) : TokenCache :=
  { access_token := t.access_token
    token_type := t.token_type
    expires_in := t.expires_in
    refresh_token := t.refresh_token.getD ""
    scope := t.scope
    expires_at := now + t.expires_in }

/-- Filesystem operations performed by `_save_token_cache`, in order, as
an explicit trace (for the atomicity question). -/
inductive FsOp where
  | mkdirParents : String → FsOp
  | writeFile : String → FsOp
  | renameFile : String → String → FsOp
  deriving DecidableEq, Repr

/-- The filesystem trace of `_save_token_cache` (auth.py lines 83-95):
`self.cache_dir.mkdir(parents=True, exist_ok=True)` followed by
`open(self.token_cache_path, 'w')` — a direct in-place write. -/
def save_token_cache_fs (cacheDir tokenCachePath : String) : List FsOp :=
  [FsOp.mkdirParents cacheDir, FsOp.writeFile tokenCachePath]

/-- A trace writes `target` atomically when it never writes `target`
directly and instead writes some temporary file and renames it onto
`target`. -/
def isAtomicReplace (t : List FsOp) (target : String) : Prop :=
  FsOp.writeFile target ∉ t ∧
    ∃ tmp, tmp ≠ target ∧ FsOp.writeFile tmp ∈ t ∧
      FsOp.renameFile tmp target ∈ t

/-- Recognizes rename operations in a trace. -/
def isRenameOp : FsOp → Bool
  | .renameFile _ _ => true
  | _ => false

/-! ### PKCE generator: base64url, UTF-8 and SHA-256
(`base64.urlsafe_b64encode`, `str.encode`, `hashlib.sha256` are Python
standard library calls; they are embedded here in full.) -/

/-- The URL-safe base64 alphabet used by `base64.urlsafe_b64encode`. -/
def b64Table : List Char :=
  "ABCDEFGHIJKLMNOPQRSTUVWXYZabcdefghijklmnopqrstuvwxyz0123456789-_".toList

/-- The alphabet character for a 6-bit value. -/
def b64Char (n : Nat) : Char :=
  b64Table.getD n '?'

/-- `base64.urlsafe_b64encode` over a byte list, padding included:
3-byte groups become 4 alphabet characters; a trailing group of 1 or 2
bytes is padded with `'='`. -/
def b64urlEncode : List Nat → List Char
  | [] => []
  | [a] => [b64Char (a / 4), b64Char (a % 4 * 16), '=', '=']
  | [a, b] =>
      [b64Char (a / 4), b64Char (a % 4 * 16 + b / 16),
        b64Char (b % 16 * 4), '=']
  | a :: b :: c :: rest =>
      b64Char (a / 4) :: b64Char (a % 4 * 16 + b / 16) ::
        b64Char (b % 16 * 4 + c / 64) :: b64Char (c % 64) ::
          b64urlEncode rest

/-- Python `str.rstrip('=')`: drop every trailing `'='`. -/
def stripTrailingEq (l : List Char) : List Char :=
  (l.reverse.dropWhile (fun c => c = '=')).reverse

/-- `SpotifyAuth._generate_code_verifier` (auth.py lines 50-53), with the
32 random bytes of `secrets.token_bytes(32)` as an explicit argument:
URL-safe base64, `'='` padding stripped. -/
def generate_code_verifier (randomBytes : List Nat) : String :=
  ⟨stripTrailingEq (b64urlEncode randomBytes)⟩

/-- UTF-8 encoding of one code point (Python `str.encode('utf-8')`). -/
def utf8EncodeChar (n : Nat) : List Nat :=
  if n < 128 then [n]
  else if n < 2048 then [192 + n / 64, 128 + n % 64]
  else if n < 65536 then
    [224 + n / 4096, 128 + n / 64 % 64, 128 + n % 64]
  else
    [240 + n / 262144, 128 + n / 4096 % 64, 128 + n / 64 % 64,
      128 + n % 64]

/-- UTF-8 encoding of a string as a byte list. -/
def utf8Encode (s : String) : List Nat :=
  (s.data.map (fun c => utf8EncodeChar c.toNat)).flatten

/-! SHA-256 (FIPS 180-4) over byte lists, words as `Nat` mod 2^32. -/

/-- Addition modulo 2^32. -/
def add32 (a b : Nat) : Nat := (a + b) % 4294967296

/-- Right rotation of a 32-bit word. -/
def rotr32 (n x : Nat) : Nat := x / 2 ^ n + x % 2 ^ n * 2 ^ (32 - n)

/-- Three-way xor. -/
def xor3 (a b c : Nat) : Nat := Nat.xor (Nat.xor a b) c

/-- SHA-256 round constants. -/
def shaK : List Nat :=
  [1116352408, 1899447441, 3049323471, 3921009573, 961987163, 1508970993,
   2453635748, 2870763221, 3624381080, 310598401, 607225278, 1426881987,
   1925078388, 2162078206, 2614888103, 3248222580, 3835390401, 4022224774,
   264347078, 604807628, 770255983, 1249150122, 1555081692, 1996064986,
   2554220882, 2821834349, 2952996808, 3210313671, 3336571891, 3584528711,
   113926993, 338241895, 666307205, 773529912, 1294757372, 1396182291,
   1695183700, 1986661051, 2177026350, 2456956037, 2730485921, 2820302411,
   3259730800, 3345764771, 3516065817, 3600352804, 4094571909, 275423344,
   430227734, 506948616, 659060556, 883997877, 958139571, 1322822218,
   1537002063, 1747873779, 1955562222, 2024104815, 2227730452, 2361852424,
   2428436474, 2756734187, 3204031479, 3329325298]

/-- SHA-256 working state, eight 32-bit words. -/
structure Sha8 where
  a : Nat
  b : Nat
  c : Nat
  d : Nat
  e : Nat
  f : Nat
  g : Nat
  h : Nat
  deriving DecidableEq, Repr

/-- SHA-256 initial hash value. -/
def shaH0 : Sha8 :=
  ⟨1779033703, 3144134277, 1013904242, 2773480762,
   1359893119, 2600822924, 528734635, 1541459225⟩

/-- Message-padding of SHA-256: append `0x80`, zeros to 56 mod 64, then
the bit length as 8 big-endian bytes. -/
def shaPad (msg : List Nat) : List Nat :=
  let L := msg.length
  let k := (119 - L % 64) % 64
  let bits := 8 * L
  msg ++ [128] ++ List.replicate k 0 ++
    [bits / 2 ^ 56 % 256, bits / 2 ^ 48 % 256, bits / 2 ^ 40 % 256,
     bits / 2 ^ 32 % 256, bits / 2 ^ 24 % 256, bits / 2 ^ 16 % 256,
     bits / 2 ^ 8 % 256, bits % 256]

/-- Split a byte list into 64-byte blocks. -/
def chunks64 (l : List Nat) : List (List Nat) :=
  if h : l = [] then []
  else l.take 64 :: chunks64 (l.drop 64)
termination_by l.length
decreasing_by
  simp only [List.length_drop]
  have : 0 < l.length := List.length_pos.mpr h
  omega

/-- The first 16 message-schedule words of a block, big-endian. -/
def msgWords (block : List Nat) : List Nat :=
  (List.range 16).map (fun i =>
    block.getD (4 * i) 0 * 16777216 + block.getD (4 * i + 1) 0 * 65536 +
      block.getD (4 * i + 2) 0 * 256 + block.getD (4 * i + 3) 0)

/-- Extend the message schedule by `k` further words. -/
def extendW (w : List Nat) : Nat → List Nat
  | 0 => w
  | k + 1 =>
      let i := w.length
      let w15 := w.getD (i - 15) 0
      let w2 := w.getD (i - 2) 0
      let s0 := xor3 (rotr32 7 w15) (rotr32 18 w15) (w15 / 2 ^ 3)
      let s1 := xor3 (rotr32 17 w2) (rotr32 19 w2) (w2 / 2 ^ 10)
      let nw := add32 (add32 (w.getD (i - 16) 0) s0)
        (add32 (w.getD (i - 7) 0) s1)
      extendW (w ++ [nw]) k

/-- One SHA-256 compression round. -/
def shaStep (s : Sha8) (k w : Nat) : Sha8 :=
  let S1 := xor3 (rotr32 6 s.e) (rotr32 11 s.e) (rotr32 25 s.e)
  let ch := Nat.xor (Nat.land s.e s.f) (Nat.land (Nat.xor 4294967295 s.e) s.g)
  let t1 := add32 (add32 (add32 s.h S1) (add32 ch k)) w
  let S0 := xor3 (rotr32 2 s.a) (rotr32 13 s.a) (rotr32 22 s.a)
  let maj := xor3 (Nat.land s.a s.b) (Nat.land s.a s.c) (Nat.land s.b s.c)
  let t2 := add32 S0 maj
  ⟨add32 t1 t2, s.a, s.b, s.c, add32 s.d t1, s.e, s.f, s.g⟩

/-- Process one 64-byte block. -/
def shaBlock (st : Sha8) (block : List Nat) : Sha8 :=
  let w := extendW (msgWords block) 48
  let s := (shaK.zip w).foldl (fun s kw => shaStep s kw.1 kw.2) st
  ⟨add32 st.a s.a, add32 st.b s.b, add32 st.c s.c, add32 st.d s.d,
   add32 st.e s.e, add32 st.f s.f, add32 st.g s.g, add32 st.h s.h⟩

/-- A 32-bit word as 4 big-endian bytes. -/
def wordBytes (v : Nat) : List Nat :=
  [v / 16777216 % 256, v / 65536 % 256, v / 256 % 256, v % 256]

/-- SHA-256 of a byte list: a 32-byte digest. -/
def sha256 (msg : List Nat) : List Nat :=
  let fin := (chunks64 (shaPad msg)).foldl shaBlock shaH0
  wordBytes fin.a ++ wordBytes fin.b ++ wordBytes fin.c ++ wordBytes fin.d ++
    wordBytes fin.e ++ wordBytes fin.f ++ wordBytes fin.g ++ wordBytes fin.h

/-- `SpotifyAuth._generate_code_challenge` (auth.py lines 55-59):
SHA-256 of the UTF-8 bytes of the verifier, URL-safe base64 encoded,
`'='` padding stripped. -/
def generate_code_challenge (verifier : String) : String :=
  ⟨stripTrailingEq (b64urlEncode (sha256 (utf8Encode verifier)))⟩

/-! ### The OAuth callback server (oauth_server.py) -/

/-- The shared class-level fields of `OAuthCallbackHandler`
(oauth_server.py lines 21-22): `result` and `error`. -/
structure HandlerState where
  result : Option (String × String)
  error : Option String
  deriving DecidableEq, Repr

/-- An incoming HTTP GET request: `urlparse(self.path).path` and the
query pairs.  Matches `parse_qs`, which drops blank values, so Python
truthiness of a fetched parameter coincides with key presence here. -/
structure HttpRequest where
  path : String
  query : List (String × String)
  deriving DecidableEq, Repr

/-- `query_params.get(key, [None])[0]` after
`parse_qs` (oauth_server.py lines 33-53): first value for `key`, blank
values dropped by `parse_qs`, `none` when absent. -/
def getQueryParam (q : List (String × String)) (key : String) :
    Option String :=
  match q.filter (fun p => p.1 = key ∧ p.2 ≠ "") with
  | [] => none
  | p :: _ => some p.2

/-- `OAuthCallbackHandler.do_GET` (oauth_server.py lines 28-89): the HTTP
status sent and the updated shared handler state.  On a path other than
`/callback` the state is untouched (404); on `/callback` an `error`
parameter wins (400), then both `code` and `state` give a result (200),
otherwise a missing-parameter error (400). -/
def do_GET (req : HttpRequest) (s : HandlerState) :
    Nat × HandlerState :=
  if req.path = "/callback" then
    match getQueryParam req.query "error" with
    | some e => (400, { s with error := some e })
    | none =>
        match getQueryParam req.query "code",
              getQueryParam req.query "state" with
        | some c, some st => (200, { s with result := some (c, st) })
        | _, _ => (400, { s with error := some "Missing code or state" })
  else (404, s)

/-- The serve loop of `start_oauth_callback_server` (oauth_server.py
lines 113-114): handle one request at a time while both shared fields
are still `None`.  The pending requests arrive as an explicit list. -/
def serveLoop (reqs : List HttpRequest) (s : HandlerState) :
    HandlerState :=
  match reqs with
  | [] => s
  | req :: rest =>
      if s.result = none ∧ s.error = none then
        serveLoop rest (do_GET req s).2
      else s

/-- `start_oauth_callback_server` (oauth_server.py lines 92-122): takes
the leftover class-level state from any previous run, resets both shared
fields to `None` (lines 105-106), serves requests until one resolves the
wait, then raises on error or returns the result. -/
def start_oauth_callback_server (leftover : HandlerState)
    (reqs : List HttpRequest) : Except String (String × String) :=
  let s0 := { leftover with result := none, error := none }
  let s := serveLoop reqs s0
  match s.error with
  | some e => .error ("OAuth error: " ++ e)
  | none =>
      match s.result with
      | some r => .ok r
      | none => .error "OAuth callback failed"

/-! ### The auth coordinator (`SpotifyAuth.authenticate`) -/

/-- Externally visible side effects of one `authenticate()` call:
`refresh_access_token`, `webbrowser.open`, binding the callback
listener, `_request_access_token` (the code-for-token exchange), and
`_save_token_cache` with the record it writes. -/
inductive Ev where
  | refreshCall : Ev
  | openBrowser : Ev
  | startListener : Ev
  | tokenExchange : Ev
  | save : TokenCache → Ev
  deriving DecidableEq, Repr

/-- The environment one `authenticate()` call runs against: the clock,
the cache file on disk, the outcome of a refresh call were one issued,
the generated state nonce, the outcome of the callback wait, and the
outcome of the code exchange were one issued. -/
structure AuthEnv where
  now : Int
  cacheFile : CacheFile
  refreshResult : Except String TokenResponse
  nonce : String
  callback : Except String (String × String)
  exchangeResult : Except String TokenResponse
  deriving Repr

/-- The full interactive flow of `authenticate` (auth.py lines 153-200):
open the browser, run the callback listener, check
`state != callback_result.state` (line 179) before the exchange, then
exchange and save.  Returns the outcome, the client handle
(`None` or the access token it wraps), and the event trace. -/
def fullFlow (env : AuthEnv) :
    Except String String × Option String × List Ev :=
  let pre := [Ev.openBrowser, Ev.startListener]
  match env.callback with
  | .error e => (.error e, none, pre)
  | .ok (_, cbState) =>
      if env.nonce ≠ cbState then
        (.error "State mismatch - possible CSRF attack", none, pre)
      else
        match env.exchangeResult with
        | .error e => (.error e, none, pre ++ [Ev.tokenExchange])
        | .ok tok =>
            (.ok tok.access_token, some tok.access_token,
              pre ++ [Ev.tokenExchange, Ev.save (save_token_cache tok env.now)])

/-- `SpotifyAuth.authenticate` (auth.py lines 100-200).  `client` is the
in-memory `self._spotify_client` handle on entry; the result is the
return value (or raised error), the handle on exit, and the trace of
side effects.  Mirrors the source: fast path on an existing handle;
cached tokens are refreshed when `expires_at <= now + 300` (line 118),
with the cached `refresh_token` re-injected when the refresh response
omits one (lines 133-134); a failed refresh falls through to the full
flow; a fresh cache is used directly. -/
def authenticate (env : AuthEnv) (client : Option String) :
    Except String String × Option String × List Ev :=
  match client with
  | some c => (.ok c, some c, [])
  | none =>
      match load_token_cache env.cacheFile env.now with
      | some cache =>
          if cache.expires_at ≤ env.now + 300 then
            match env.refreshResult with
            | .ok newTok =>
                let newTok' :=
                  if newTok.refresh_token = none then
                    { newTok with refresh_token := some cache.refresh_token }
                  else newTok
                (.ok newTok'.access_token, some newTok'.access_token,
                  [Ev.refreshCall, Ev.save (save_token_cache newTok' env.now)])
            | .error _ =>
                let r := fullFlow env
                (r.1, r.2.1, Ev.refreshCall :: r.2.2)
          else
            (.ok cache.access_token, some cache.access_token, [])
      | none => fullFlow env

/-- `authenticate` reaches the full interactive flow: no usable cache,
or a cache due for refresh whose refresh call fails (auth.py lines
142-145 fall through to the full flow). -/
def reachesFullFlow (env : AuthEnv) : Prop :=
  load_token_cache env.cacheFile env.now = none ∨
    ∃ c, load_token_cache env.cacheFile env.now = some c ∧
      c.expires_at ≤ env.now + 300 ∧
      ∃ e, env.refreshResult = .error e

/-- The URL-safe base64 alphabet as a character predicate:
letters, digits, `'-'` and `'_'`. -/
def isUrlSafeChar (c : Char) : Bool :=
  c.isAlphanum || c = '-' || c = '_'

/-! ## Claim theorems -/

/-! ### Lemmas on the base64url encoder (for C8) -/

/-- Every 6-bit value maps into the alphabet. -/
lemma b64Char_mem : ∀ n < 64, b64Char n ∈ b64Table := by decide

/-- Every alphabet character is URL-safe. -/
lemma b64Table_urlsafe : ∀ c ∈ b64Table, isUrlSafeChar c = true := by decide

/-- The padding character is not in the alphabet. -/
lemma eq_not_mem_b64Table : '=' ∉ b64Table := by decide

/-- The encoder output length is `4 * ceil(n / 3)`. -/
lemma b64urlEncode_length (l : List Nat) :
    (b64urlEncode l).length = 4 * ((l.length + 2) / 3) := by
  induction l using b64urlEncode.induct with
  | case1 => rfl
  | case2 a => simp [b64urlEncode]
  | case3 a b => simp [b64urlEncode]
  | case4 a b c rest ih =>
      simp [b64urlEncode, ih]
      omega

/-- On a byte list of length 2 mod 3, the encoder emits alphabet
characters followed by exactly one `'='`. -/
lemma b64urlEncode_two_mod_three :
    ∀ l : List Nat, (∀ b ∈ l, b < 256) → l.length % 3 = 2 →
      ∃ init, b64urlEncode l = init ++ ['='] ∧
        ∀ c ∈ init, c ∈ b64Table := by
  intro l
  induction l using b64urlEncode.induct with
  | case1 => intro _ h; simp at h
  | case2 a => intro _ h; simp at h
  | case3 a b =>
      intro hb _
      have ha : a < 256 := hb a (by simp)
      have hb' : b < 256 := hb b (by simp)
      refine ⟨[b64Char (a / 4), b64Char (a % 4 * 16 + b / 16),
        b64Char (b % 16 * 4)], rfl, ?_⟩
      intro c hc
      simp only [List.mem_cons, List.not_mem_nil, or_false] at hc
      rcases hc with rfl | rfl | rfl
      · exact b64Char_mem _ (by omega)
      · exact b64Char_mem _ (by omega)
      · exact b64Char_mem _ (by omega)
  | case4 a b c rest ih =>
      intro hb hlen
      have ha : a < 256 := hb a (by simp)
      have hb' : b < 256 := hb b (by simp)
      have hc' : c < 256 := hb c (by simp)
      have hrest : ∀ x ∈ rest, x < 256 := fun x hx => hb x (by simp [hx])
      have hlen' : rest.length % 3 = 2 := by
        simp only [List.length_cons] at hlen
        omega
      obtain ⟨init, henc, hmem⟩ := ih hrest hlen'
      refine ⟨b64Char (a / 4) :: b64Char (a % 4 * 16 + b / 16) ::
        b64Char (b % 16 * 4 + c / 64) :: b64Char (c % 64) :: init, ?_, ?_⟩
      · simp [b64urlEncode, henc]
      · intro x hx
        simp only [List.mem_cons] at hx
        rcases hx with rfl | rfl | rfl | rfl | hx
        · exact b64Char_mem _ (by omega)
        · exact b64Char_mem _ (by omega)
        · exact b64Char_mem _ (by omega)
        · exact b64Char_mem _ (by omega)
        · exact hmem x hx

/-- `dropWhile` is the identity on a list none of whose elements
satisfies the predicate (head case suffices). -/
lemma dropWhile_eq_self_of_not (l : List Char)
    (h : ∀ c ∈ l, c ≠ '=') :
    l.dropWhile (fun c => c = '=') = l := by
  cases l with
  | nil => rfl
  | cons a t =>
      have : a ≠ '=' := h a (by simp)
      simp [List.dropWhile_cons, this]

/-- Stripping the padding of an alphabet-prefix-plus-one-pad list
returns the prefix. -/
lemma stripTrailingEq_append_pad (init : List Char)
    (h : ∀ c ∈ init, c ∈ b64Table) :
    stripTrailingEq (init ++ ['=']) = init := by
  have hne : ∀ c ∈ init.reverse, c ≠ '=' := by
    intro c hc
    have := h c (List.mem_reverse.mp hc)
    intro he
    exact eq_not_mem_b64Table (he ▸ this)
  have h1 : ('=' :: init.reverse).dropWhile (fun c => c = '=') =
      init.reverse.dropWhile (fun c => c = '=') := by
    simp [List.dropWhile_cons]
  unfold stripTrailingEq
  rw [List.reverse_append]
  simp only [List.reverse_cons, List.reverse_nil, List.nil_append,
    List.singleton_append]
  rw [h1, dropWhile_eq_self_of_not _ hne, List.reverse_reverse]

/-- C8: for every 32-byte random input, the generated verifier is the
URL-safe base64 encoding of those bytes with the `'='` padding
stripped: it has length 43 (hence within [43, 128]), every character
is in the URL-safe alphabet, and no padding character remains; and the
challenge derivation is a pure function — equal inputs give equal
challenges — whose value is exactly the unpadded URL-safe base64
encoding of the SHA-256 digest of the verifier's UTF-8 bytes. -/
theorem C8_pkce_generator (bytes : List Nat) (hlen : bytes.length = 32)
    (hb : ∀ b ∈ bytes, b < 256) :
    (generate_code_verifier bytes).length = 43 ∧
    (43 ≤ (generate_code_verifier bytes).length ∧
      (generate_code_verifier bytes).length ≤ 128) ∧
    (∀ c ∈ (generate_code_verifier bytes).data, isUrlSafeChar c = true) ∧
    '=' ∉ (generate_code_verifier bytes).data ∧
    (∀ v w : String, v = w →
      generate_code_challenge v = generate_code_challenge w) ∧
    generate_code_challenge (generate_code_verifier bytes) =
      ⟨stripTrailingEq
        (b64urlEncode (sha256 (utf8Encode (generate_code_verifier bytes))))⟩ := by
  obtain ⟨init, henc, hmem⟩ :=
    b64urlEncode_two_mod_three bytes hb (by rw [hlen])
  have hdata : (generate_code_verifier bytes).data = init := by
    simp [generate_code_verifier, henc, stripTrailingEq_append_pad init hmem]
  have hinitlen : init.length = 43 := by
    have h44 := b64urlEncode_length bytes
    rw [hlen, henc] at h44
    simp at h44
    omega
  have hslen : (generate_code_verifier bytes).length = 43 := by
    show (generate_code_verifier bytes).data.length = 43
    rw [hdata, hinitlen]
  refine ⟨hslen, by omega, ?_, ?_, fun v w hvw => by rw [hvw], rfl⟩
  · intro c hc
    rw [hdata] at hc
    exact b64Table_urlsafe c (hmem c hc)
  · intro hc
    rw [hdata] at hc
    exact eq_not_mem_b64Table (hmem _ hc)

/-- C8 witness: the 32 bytes `0, 1, ..., 31`. -/
theorem C8_pkce_generator_witness :
    (generate_code_verifier (List.range 32)).length = 43 :=
  (C8_pkce_generator (List.range 32) (by simp)
    (fun b hb => by have := List.mem_range.mp hb; omega)).1

/-- C4: `_load_token_cache` returns `none` on a missing, unreadable or
malformed cache file, and returns the stored record whenever a (truthy)
`refresh_token` is present, whatever the `expires_at` — in particular
when the access token has already expired. -/
theorem C4_load_absent_or_refresh (now : Int) :
    load_token_cache CacheFile.missing now = none ∧
    load_token_cache CacheFile.unreadable now = none ∧
    load_token_cache CacheFile.malformed now = none ∧
    ∀ c : TokenCache, c.refresh_token ≠ "" →
      load_token_cache (CacheFile.parsed c) now = some c := by
  refine ⟨rfl, rfl, rfl, fun c hc => ?_⟩
  simp only [load_token_cache]
  by_cases hf : isFresh c.expires_at now = true
  · simp [hf]
  · simp [hf, hc]

/-- C4 witness: at `now = 1000`, an expired record (`expires_at = 0`)
with refresh token `"R"` is still returned. -/
theorem C4_load_absent_or_refresh_witness :
    load_token_cache
      (CacheFile.parsed ⟨"A", "Bearer", 3600, "R", "user-read-email", 0⟩)
      1000 = some ⟨"A", "Bearer", 3600, "R", "user-read-email", 0⟩ :=
  (C4_load_absent_or_refresh 1000).2.2.2 _ (by decide)

/-- C5: the freshness test of the cache (auth.py line 69) holds exactly
when `expires_at > now + 300`; the `expires_at = now + 300` boundary is
not fresh, `now + 301` is; and the coordinator's refresh condition
(auth.py line 118, `expires_at <= now + 300`) is its exact negation. -/
theorem C5_isFresh_boundary (r : TokenCache) (now : Int) :
    (isFresh r.expires_at now = true ↔ r.expires_at > now + 300) ∧
    (r.expires_at = now + 300 → isFresh r.expires_at now = false) ∧
    (r.expires_at = now + 301 → isFresh r.expires_at now = true) ∧
    (isFresh r.expires_at now = false ↔ r.expires_at ≤ now + 300) := by
  unfold isFresh
  refine ⟨by simp [gt_iff_lt], fun h => ?_, fun h => ?_, by simp⟩
  · simp [h]
  · simp [h]

/-- C5 witness: instantiated at `expires_at = 1300`, `now = 1000`. -/
theorem C5_isFresh_boundary_witness :
    isFresh (1300 : Int) 1000 = false ∧ isFresh (1301 : Int) 1000 = true :=
  ⟨(C5_isFresh_boundary ⟨"A", "Bearer", 3600, "R", "s", 1300⟩ 1000).2.1 rfl,
   (C5_isFresh_boundary ⟨"A", "Bearer", 3600, "R", "s", 1301⟩ 1000).2.2.1 rfl⟩

/-- C2 counterexample: the save trace of `_save_token_cache` (with the
default cache locations of auth.py lines 45-47) is not an atomic
replace of the cache path — it writes the cache file directly in place,
with no temporary file and no rename. -/
theorem C2_save_not_atomic :
    ¬ isAtomicReplace
        (save_token_cache_fs "/home/user/.spotify-mcp"
          "/home/user/.spotify-mcp/token-cache.json")
        "/home/user/.spotify-mcp/token-cache.json" := by
  intro h
  exact h.1 (by simp [save_token_cache_fs])

/-- C2 amended: `_save_token_cache` creates the parent directory, then
writes the cache file directly in place (truncate-and-write); the trace
contains no rename, so the write is not an atomic replace and a
concurrent reader may observe a partially written file. -/
theorem C2_save_direct_write (cacheDir tokenCachePath : String) :
    FsOp.mkdirParents cacheDir ∈ save_token_cache_fs cacheDir tokenCachePath ∧
    FsOp.writeFile tokenCachePath ∈
      save_token_cache_fs cacheDir tokenCachePath ∧
    (save_token_cache_fs cacheDir tokenCachePath).filter isRenameOp = [] := by
  refine ⟨by simp [save_token_cache_fs], by simp [save_token_cache_fs], rfl⟩

/-- C3 counterexample: a full-flow run whose token-exchange response
omits `refresh_token` writes the empty string to the cache even though
the previously cached record (whose refresh had just failed) held
refresh token `"R"`: the cached value is not kept. -/
theorem C3_save_drops_refresh_token :
    (save_token_cache ⟨"A1", "Bearer", 3600, none, "s", none⟩ 2000
      ).refresh_token = "" ∧
    Ev.save ⟨"A1", "Bearer", 3600, "", "s", 5600⟩ ∈
      (authenticate
        ⟨2000, CacheFile.parsed ⟨"A0", "Bearer", 3600, "R", "s", 100⟩,
         Except.error "revoked", "N",
         Except.ok ("authcode", "N"),
         Except.ok ⟨"A1", "Bearer", 3600, none, "s", none⟩⟩
        none).2.2 ∧
    ("R" : String) ≠ "" := by
  refine ⟨rfl, ?_, by decide⟩
  simp [authenticate, load_token_cache, isFresh, fullFlow, save_token_cache]

/-- C3 amended: `_save_token_cache` itself replaces an omitted
`refresh_token` with `''`; the preservation happens one level up, in the
refresh path of `authenticate` (auth.py lines 133-134), which copies the
cached `refresh_token` into the response before saving.  For every
refresh-path run whose refresh response omits `refresh_token`, the
record saved keeps the cached one. -/
theorem C3_refresh_path_preserves_refresh_token (env : AuthEnv)
    (cache : TokenCache) (resp : TokenResponse)
    (hc : env.cacheFile = CacheFile.parsed cache)
    (hs : cache.expires_at ≤ env.now + 300)
    (hr : cache.refresh_token ≠ "")
    (hok : env.refreshResult = Except.ok resp)
    (hno : resp.refresh_token = none) :
    (authenticate env none).2.2 =
      [Ev.refreshCall,
       Ev.save ⟨resp.access_token, resp.token_type, resp.expires_in,
         cache.refresh_token, resp.scope, env.now + resp.expires_in⟩] := by
  have hfresh : isFresh cache.expires_at env.now = false := by
    unfold isFresh; simp; omega
  have hload : load_token_cache env.cacheFile env.now = some cache := by
    rw [hc]; simp [load_token_cache, hfresh, hr]
  simp [authenticate, hload, hs, hok, hno, save_token_cache]

/-- C3 amended witness: a concrete refresh-path run with cached refresh
token `"R"` and a refresh response that omits one. -/
theorem C3_refresh_path_preserves_refresh_token_witness :
    (authenticate
      ⟨2000, CacheFile.parsed ⟨"A0", "Bearer", 3600, "R", "s", 100⟩,
       Except.ok ⟨"A1", "Bearer", 3600, none, "s", none⟩, "N",
       Except.error "unused", Except.error "unused"⟩
      none).2.2 =
      [Ev.refreshCall, Ev.save ⟨"A1", "Bearer", 3600, "R", "s", 5600⟩] :=
  C3_refresh_path_preserves_refresh_token _ _ _ rfl (by decide) (by decide)
    rfl rfl

/-- C9 counterexample: a token response with `expires_in = 0` and no
`refresh_token`, saved and immediately loaded at the same clock, loads
as absent — the round trip does not yield a record at all. -/
theorem C9_roundtrip_fails_when_stale :
    load_token_cache
      (CacheFile.parsed
        (save_token_cache ⟨"A", "Bearer", 0, none, "s", none⟩ 1000))
      1000 = none := by
  decide

/-- C9 amended: provided the response is usable — `expires_in > 300` or
a non-empty `refresh_token` — saving and immediately loading at the same
clock returns exactly the saved record; its `access_token`,
`refresh_token` and `scope` equal the saved ones and `expires_at` is
recomputed as save-time `now + expires_in`, whatever `expires_at` the
remote response carried. -/
theorem C9_save_load_roundtrip (resp : TokenResponse) (now : Int)
    (h : 300 < resp.expires_in ∨ resp.refresh_token.getD "" ≠ "") :
    load_token_cache (CacheFile.parsed (save_token_cache resp now)) now =
      some (save_token_cache resp now) ∧
    (save_token_cache resp now).access_token = resp.access_token ∧
    (save_token_cache resp now).refresh_token = resp.refresh_token.getD "" ∧
    (save_token_cache resp now).scope = resp.scope ∧
    ∀ ea : Option Int,
      (save_token_cache { resp with expires_at := ea } now).expires_at =
        now + resp.expires_in := by
  refine ⟨?_, rfl, rfl, rfl, fun ea => rfl⟩
  simp only [load_token_cache, save_token_cache, isFresh]
  rcases h with h | h
  · have : now + 300 < now + resp.expires_in := by omega
    simp [this]
  · by_cases hf : now + 300 < now + resp.expires_in
    · simp [hf]
    · simp [hf, h]

/-- C9 amended witness: a concrete response with `expires_in = 3600`. -/
theorem C9_save_load_roundtrip_witness :
    load_token_cache
      (CacheFile.parsed
        (save_token_cache ⟨"A", "Bearer", 3600, some "R", "s", some 7⟩ 1000))
      1000 =
      some (save_token_cache ⟨"A", "Bearer", 3600, some "R", "s", some 7⟩ 1000) :=
  (C9_save_load_roundtrip ⟨"A", "Bearer", 3600, some "R", "s", some 7⟩ 1000
    (Or.inl (by decide))).1

/-- C1: in every run of `authenticate` that reaches the full interactive
flow, if the state returned by the callback differs from the nonce
generated for the attempt, the call raises the fatal
`"State mismatch - possible CSRF attack"` error, the trace contains no
token-exchange call, and the in-memory client handle stays unset. -/
theorem C1_state_mismatch_aborts (env : AuthEnv) (code s : String)
    (hflow : reachesFullFlow env)
    (hcb : env.callback = Except.ok (code, s))
    (hne : s ≠ env.nonce) :
    (authenticate env none).1 =
      Except.error "State mismatch - possible CSRF attack" ∧
    Ev.tokenExchange ∉ (authenticate env none).2.2 ∧
    (authenticate env none).2.1 = none := by
  have hmm : env.nonce ≠ s := fun h => hne h.symm
  have hfull : fullFlow env =
      (Except.error "State mismatch - possible CSRF attack", none,
        [Ev.openBrowser, Ev.startListener]) := by
    simp [fullFlow, hcb, hmm]
  rcases hflow with hnone | ⟨c, hsome, hstale, e, herr⟩
  · simp [authenticate, hnone, hfull]
  · simp [authenticate, hsome, hstale, herr, hfull]

/-- C1 witness: a run with no cache whose forged callback carries state
`"X"` while the generated nonce is `"Y"`. -/
theorem C1_state_mismatch_aborts_witness :
    (authenticate
      ⟨0, CacheFile.missing, Except.error "unused", "Y",
       Except.ok ("authcode", "X"), Except.error "unused"⟩
      none).1 =
      Except.error "State mismatch - possible CSRF attack" :=
  (C1_state_mismatch_aborts
    ⟨0, CacheFile.missing, Except.error "unused", "Y",
     Except.ok ("authcode", "X"), Except.error "unused"⟩
    "authcode" "X" (Or.inl rfl) rfl (by decide)).1

/-- C6: given a cached record with a (truthy) `refresh_token` whose
`expires_at` lies in the past, and a refresh call that succeeds,
`authenticate` performs exactly one refresh call and never opens the
browser nor binds the callback listener. -/
theorem C6_refresh_only (env : AuthEnv) (cache : TokenCache)
    (resp : TokenResponse)
    (hc : env.cacheFile = CacheFile.parsed cache)
    (hr : cache.refresh_token ≠ "")
    (hpast : cache.expires_at < env.now)
    (hok : env.refreshResult = Except.ok resp) :
    ((authenticate env none).2.2.count Ev.refreshCall = 1) ∧
    Ev.openBrowser ∉ (authenticate env none).2.2 ∧
    Ev.startListener ∉ (authenticate env none).2.2 := by
  have hfresh : isFresh cache.expires_at env.now = false := by
    unfold isFresh; simp; omega
  have hload : load_token_cache env.cacheFile env.now = some cache := by
    rw [hc]; simp [load_token_cache, hfresh, hr]
  have hstale : cache.expires_at ≤ env.now + 300 := by omega
  simp [authenticate, hload, hstale, hok, List.count_cons]

/-- C6 witness: a concrete expired cache with refresh token `"R"` and a
successful refresh. -/
theorem C6_refresh_only_witness :
    ((authenticate
      ⟨2000, CacheFile.parsed ⟨"A0", "Bearer", 3600, "R", "s", 100⟩,
       Except.ok ⟨"A1", "Bearer", 3600, some "R2", "s", none⟩, "N",
       Except.error "unused", Except.error "unused"⟩
      none).2.2.count Ev.refreshCall = 1) :=
  (C6_refresh_only
    ⟨2000, CacheFile.parsed ⟨"A0", "Bearer", 3600, "R", "s", 100⟩,
     Except.ok ⟨"A1", "Bearer", 3600, some "R2", "s", none⟩, "N",
     Except.error "unused", Except.error "unused"⟩
    ⟨"A0", "Bearer", 3600, "R", "s", 100⟩
    ⟨"A1", "Bearer", 3600, some "R2", "s", none⟩
    rfl (by decide) (by decide) rfl).1

/-- C7: for every request handled by the callback handler: a path other
than `/callback` gets 404 and leaves the shared state untouched (the
wait is not resolved); `/callback` with an `error` parameter gets 400
and resolves the wait with that error; `/callback` with no error but
both `code` and `state` gets 200 and resolves the wait with the pair;
`/callback` with no error and `code` or `state` missing gets 400 and
resolves the wait with the missing-parameter error. -/
theorem C7_do_GET_cases (req : HttpRequest) (s : HandlerState) :
    (req.path ≠ "/callback" → do_GET req s = (404, s)) ∧
    (∀ e, req.path = "/callback" →
      getQueryParam req.query "error" = some e →
      do_GET req s = (400, { s with error := some e })) ∧
    (∀ c st, req.path = "/callback" →
      getQueryParam req.query "error" = none →
      getQueryParam req.query "code" = some c →
      getQueryParam req.query "state" = some st →
      do_GET req s = (200, { s with result := some (c, st) })) ∧
    (req.path = "/callback" →
      getQueryParam req.query "error" = none →
      (getQueryParam req.query "code" = none ∨
        getQueryParam req.query "state" = none) →
      do_GET req s =
        (400, { s with error := some "Missing code or state" })) := by
  refine ⟨fun hp => ?_, fun e hp he => ?_, fun c st hp he hc hst => ?_,
    fun hp he hmiss => ?_⟩
  · simp [do_GET, hp]
  · simp [do_GET, hp, he]
  · simp [do_GET, hp, he, hc, hst]
  · rcases hmiss with hc | hst
    · simp [do_GET, hp, he, hc]
    · simp only [do_GET, hp, if_true, he, hst]
      rcases hcode : getQueryParam req.query "code" with _ | c <;> simp

/-- C7 witness: the four cases at concrete requests. -/
theorem C7_do_GET_cases_witness :
    do_GET ⟨"/other-path", []⟩ ⟨none, none⟩ = (404, ⟨none, none⟩) ∧
    do_GET ⟨"/callback", [("error", "access_denied")]⟩ ⟨none, none⟩ =
      (400, ⟨none, some "access_denied"⟩) ∧
    do_GET ⟨"/callback", [("code", "C"), ("state", "S")]⟩ ⟨none, none⟩ =
      (200, ⟨some ("C", "S"), none⟩) ∧
    do_GET ⟨"/callback", [("code", "C")]⟩ ⟨none, none⟩ =
      (400, ⟨none, some "Missing code or state"⟩) :=
  ⟨(C7_do_GET_cases ⟨"/other-path", []⟩ ⟨none, none⟩).1 (by decide),
   (C7_do_GET_cases ⟨"/callback", [("error", "access_denied")]⟩
      ⟨none, none⟩).2.1 "access_denied" rfl (by decide),
   (C7_do_GET_cases ⟨"/callback", [("code", "C"), ("state", "S")]⟩
      ⟨none, none⟩).2.2.1 "C" "S" rfl (by decide) (by decide) (by decide),
   (C7_do_GET_cases ⟨"/callback", [("code", "C")]⟩
      ⟨none, none⟩).2.2.2 rfl (by decide) (Or.inr (by decide))⟩

/-- Once a shared field is set, the serve loop stops. -/
lemma serveLoop_resolved (reqs : List HttpRequest) (s : HandlerState)
    (h : ¬ (s.result = none ∧ s.error = none)) :
    serveLoop reqs s = s := by
  cases reqs with
  | nil => rfl
  | cons r rest => simp [serveLoop, h]

/-- A request that is not to `/callback` leaves the state unchanged. -/
lemma do_GET_other_path (req : HttpRequest) (s : HandlerState)
    (hp : req.path ≠ "/callback") : (do_GET req s).2 = s := by
  simp [do_GET, hp]

/-- If a serve loop started from the reset state ends with a result and
no error, some request of the run is a `/callback` request carrying
exactly that code and state (and no error parameter). -/
lemma serveLoop_ok_source (reqs : List HttpRequest) (r : String × String)
    (hres : (serveLoop reqs ⟨none, none⟩).result = some r)
    (herr : (serveLoop reqs ⟨none, none⟩).error = none) :
    ∃ req ∈ reqs, req.path = "/callback" ∧
      getQueryParam req.query "error" = none ∧
      getQueryParam req.query "code" = some r.1 ∧
      getQueryParam req.query "state" = some r.2 := by
  induction reqs with
  | nil => simp [serveLoop] at hres
  | cons req rest ih =>
      rw [serveLoop, if_pos (by exact ⟨rfl, rfl⟩)] at hres herr
      by_cases hp : req.path = "/callback"
      · rcases he : getQueryParam req.query "error" with _ | e
        · rcases hc : getQueryParam req.query "code" with _ | c
          · have h2 : (do_GET req ⟨none, none⟩).2 =
                ⟨none, some "Missing code or state"⟩ := by
              simp [do_GET, hp, he, hc]
            rw [h2, serveLoop_resolved _ _ (by simp)] at hres herr
            simp at herr
          · rcases hst : getQueryParam req.query "state" with _ | st
            · have h2 : (do_GET req ⟨none, none⟩).2 =
                  ⟨none, some "Missing code or state"⟩ := by
                simp [do_GET, hp, he, hc, hst]
              rw [h2, serveLoop_resolved _ _ (by simp)] at hres herr
              simp at herr
            · have h2 : (do_GET req ⟨none, none⟩).2 =
                  ⟨some (c, st), none⟩ := by
                simp [do_GET, hp, he, hc, hst]
              rw [h2, serveLoop_resolved _ _ (by simp)] at hres
              obtain rfl := Option.some.inj hres
              exact ⟨req, List.mem_cons_self _ _, hp, he, hc, hst⟩
        · have h2 : (do_GET req ⟨none, none⟩).2 = ⟨none, some e⟩ := by
            simp [do_GET, hp, he]
          rw [h2, serveLoop_resolved _ _ (by simp)] at hres herr
          simp at herr
      · rw [do_GET_other_path req _ hp] at hres herr
        obtain ⟨w, hw, hrest⟩ := ih hres herr
        exact ⟨w, List.mem_cons_of_mem _ hw, hrest⟩

/-- C10: `start_oauth_callback_server` resets the shared handler fields
before serving, so its outcome never depends on leftover state from a
previous run: any two leftover states give the same outcome, with no
requests to serve it cannot return a leftover result (it fails), and a
successful result always comes from a `/callback` request of the same
run carrying exactly that code and state. -/
theorem C10_server_resets_shared_state (leftover other : HandlerState)
    (reqs : List HttpRequest) :
    start_oauth_callback_server leftover reqs =
      start_oauth_callback_server other reqs ∧
    start_oauth_callback_server leftover [] =
      Except.error "OAuth callback failed" ∧
    ∀ r, start_oauth_callback_server leftover reqs = Except.ok r →
      ∃ req ∈ reqs, req.path = "/callback" ∧
        getQueryParam req.query "error" = none ∧
        getQueryParam req.query "code" = some r.1 ∧
        getQueryParam req.query "state" = some r.2 := by
  refine ⟨rfl, rfl, fun r hr => ?_⟩
  unfold start_oauth_callback_server at hr
  rcases herr : (serveLoop reqs ⟨none, none⟩).error with _ | e
  · rcases hres : (serveLoop reqs ⟨none, none⟩).result with _ | r'
    · simp only [herr, hres] at hr
      exact absurd hr (by simp)
    · simp only [herr, hres] at hr
      obtain rfl := Except.ok.inj hr
      exact serveLoop_ok_source reqs r' hres herr
  · simp only [herr] at hr
    exact absurd hr (by simp)

/-- C10 witness: with a leftover success and a leftover error from a
previous run, an empty run still fails with `"OAuth callback failed"`,
and both leftovers give identical outcomes on a forged request list. -/
theorem C10_server_resets_shared_state_witness :
    start_oauth_callback_server ⟨some ("C", "S"), some "boom"⟩ [] =
      Except.error "OAuth callback failed" ∧
    start_oauth_callback_server ⟨some ("C", "S"), some "boom"⟩
        [⟨"/callback", [("code", "C2"), ("state", "S2")]⟩] =
      start_oauth_callback_server ⟨none, none⟩
        [⟨"/callback", [("code", "C2"), ("state", "S2")]⟩] :=
  ⟨(C10_server_resets_shared_state ⟨some ("C", "S"), some "boom"⟩
      ⟨none, none⟩ []).2.1,
   (C10_server_resets_shared_state ⟨some ("C", "S"), some "boom"⟩
      ⟨none, none⟩
      [⟨"/callback", [("code", "C2"), ("state", "S2")]⟩]).1⟩

end SpotifyMCP
